import Mathlib

/-!
Verification of the school-api repository: a shallow embedding of its
Sequelize models (`student.model.js`, `teacher.model.js` Student/Teacher/Course
definitions, `models/index.js` associations and `CourseStudent` join table)
and of its Express controllers (students, courses, and the two observed
teacher controller variants), together with theorems settling the frozen
claims about pagination, sorting, populate handling, generated identifiers,
CRUD error handling and enrollment uniqueness.

Conventions of the embedding:
* Machine integers are `Int`/`Nat`; JavaScript `parseInt` is modelled as a
  decimal parser returning `Option Int` (`none` plays the role of `NaN`).
* The database tables are in-memory lists; `count` is list length and
  `findAll` with `limit`/`offset`/`order` is sorting followed by
  `drop`/`take`, failing (as the SQL layer does) on negative limit or
  offset.  Attribute projection requested from the ORM is recorded in the
  issued query description rather than applied to rows.
* Each controller is a pure function from its request data and the database
  state to a response value, paired with the list of database queries it
  issued (so that "no query executed" is expressible).
-/

/-- ASCII whitespace, the relevant fragment of the characters JavaScript
`trim` and `parseInt` skip. -/
def isJsSpace (c : Char) : Bool :=
  c == ' ' || c == '\t' || c == '\n' || c == '\r'

/-- JavaScript `String.prototype.trim` (over the ASCII whitespace above). -/
def jsTrim (s : String) : String :=
  String.mk (((s.data.dropWhile isJsSpace).reverse.dropWhile isJsSpace).reverse)

/-- Lower-case an ASCII letter (JavaScript `toLowerCase` on the identifiers
the controllers compare). -/
def charLower (c : Char) : Char :=
  if 65 <= c.toNat && c.toNat <= 90 then Char.ofNat (c.toNat + 32) else c

/-- Upper-case an ASCII letter (JavaScript `toUpperCase`). -/
def charUpper (c : Char) : Char :=
  if 97 <= c.toNat && c.toNat <= 122 then Char.ofNat (c.toNat - 32) else c

/-- JavaScript `toLowerCase` (ASCII fragment). -/
def toLowerStr (s : String) : String :=
  String.mk (s.data.map charLower)

/-- JavaScript `toUpperCase` (ASCII fragment). -/
def toUpperStr (s : String) : String :=
  String.mk (s.data.map charUpper)

/-- `split(',')` on the character list, accumulating the current field. -/
def splitCommaAux : List Char → List Char → List String
  | [], acc => [String.mk acc.reverse]
  | c :: cs, acc =>
    if c == ',' then String.mk acc.reverse :: splitCommaAux cs []
    else splitCommaAux cs (c :: acc)

/-- JavaScript `String.prototype.split(',')`. -/
def splitComma (s : String) : List String :=
  splitCommaAux s.data []

/-- JavaScript `parseInt` restricted to base 10: skip leading whitespace,
optional sign, then the longest leading run of decimal digits; `none` models
`NaN` when no digit is found.  (The hexadecimal `0x` prefix of `parseInt` is
not modelled; no claim involves it.) -/
def takeDigits : List Char → Nat → Nat
  | [], acc => acc
  | c :: cs, acc => if c.isDigit then takeDigits cs (acc * 10 + (c.toNat - 48)) else acc

/-- The longest leading digit run as a number, `none` if the first character
is not a digit. -/
def leadDigits (cs : List Char) : Option Nat :=
  match cs with
  | [] => none
  | c :: _ => if c.isDigit then some (takeDigits cs 0) else none

/-- JavaScript `parseInt(s)` for decimal strings. -/
def jsParseInt (s : String) : Option Int :=
  match (jsTrim s).data with
  | '-' :: rest => (leadDigits rest).map (fun n => -(n : Int))
  | '+' :: rest => (leadDigits rest).map (fun n => (n : Int))
  | cs => (leadDigits cs).map (fun n => (n : Int))

/-- JavaScript `parseInt(x) || d`: an absent parameter, a `NaN` parse and a
parse to `0` (all falsy) fall back to the default `d`. -/
def parseIntOr (s : Option String) (d : Int) : Int :=
  match s with
  | none => d
  | some str =>
    match jsParseInt str with
    | none => d
    | some n => if n == 0 then d else n

/-- JavaScript `x || d` on an optional string: `undefined` and the empty
string (both falsy) fall back to `d`. -/
def jsOrElse (s : Option String) (d : String) : String :=
  match s with
  | none => d
  | some str => if str.isEmpty then d else str

/-- JavaScript truthiness of an optional string field: `undefined`, `null`
and `""` are falsy. -/
def jsFalsy : Option String → Bool
  | none => true
  | some s => s.isEmpty

/-- JavaScript `String.prototype.padStart(w, c)`. -/
def padStart (s : String) (w : Nat) (c : Char) : String :=
  String.mk (List.replicate (w - s.length) c) ++ s

/-- `populate.split(',').map(p => p.trim())` from the courses controller and
the parametrized teachers controller. -/
def splitTrim (p : String) : List String :=
  (splitComma p).map jsTrim

/-- The three Sequelize models that can appear in an `include`. -/
inductive ModelName where
  | student
  | teacher
  | course
deriving DecidableEq, Repr

/-- One entry of a Sequelize `include` array: the related model, the
requested attribute projection (`none` when the controller does not narrow
the attributes) and the models included one level deeper (`include:` nested
inside the entry). -/
structure IncludeSpec where
  model : ModelName
  attributes : Option (List String)
  nested : List ModelName
deriving DecidableEq, Repr

/-- Sort direction, the `ASC`/`DESC` sent to the ORM. -/
inductive SortDir where
  | asc
  | desc
deriving DecidableEq, Repr

/-- A sortable column value: the observed whitelists only sort on integer
columns (ids, timestamps) and string columns. -/
inductive Val where
  | int (i : Int)
  | str (s : String)
deriving DecidableEq, Repr

/-- Comparison on column values (values of one column share a constructor,
so the cross cases are arbitrary). -/
def lexLe : List Char → List Char → Bool
  | [], _ => true
  | _ :: _, [] => false
  | a :: as, b :: bs => if a == b then lexLe as bs else decide (a.toNat < b.toNat)

def Val.leb : Val → Val → Bool
  | .int a, .int b => decide (a ≤ b)
  | .str a, .str b => lexLe a.data b.data
  | .int _, .str _ => true
  | .str _, .int _ => false

/-- Insert into a sorted list, keeping stability. -/
def insertLe (le : α → α → Bool) (a : α) : List α → List α
  | [] => [a]
  | b :: t => if le a b then a :: b :: t else b :: insertLe le a t

/-- Insertion sort; the model of the `ORDER BY` the database applies. -/
def sortListBy (le : α → α → Bool) : List α → List α
  | [] => []
  | a :: t => insertLe le a (sortListBy le t)

/-- Direction-aware comparison used for `ORDER BY field ASC|DESC`. -/
def dirLe (dir : SortDir) (a b : Val) : Bool :=
  match dir with
  | .asc => Val.leb a b
  | .desc => Val.leb b a

/-- Apply `order: [[field, dir]]` to a table. -/
def orderRows (key : String → ρ → Val) (field : String) (dir : SortDir)
    (rows : List ρ) : List ρ :=
  sortListBy (fun a b => dirLe dir (key field a) (key field b)) rows

/-- The database executing `findAll` with `LIMIT`/`OFFSET` on an already
ordered table: negative values are rejected by the SQL layer (the connector
raises, which the controllers turn into a 500). -/
def findAllRows (rows : List α) (limit offset : Int) : Except String (List α) :=
  if limit < 0 ∨ offset < 0 then .error "invalid LIMIT or OFFSET"
  else .ok ((rows.drop offset.toNat).take limit.toNat)

/-- A row of the `Students` table (`student.model.js`); `createdYear` records
the calendar year of `createdAt`. -/
structure StudentRec where
  id : Int
  name : String
  email : String
  studentId : Option String
  createdAt : Int
  updatedAt : Int
  createdYear : Nat
deriving DecidableEq, Repr

/-- A row of the `Teachers` table (`teacher.model.js`). -/
structure TeacherRec where
  id : Int
  name : String
  email : String
  employeeId : Option String
  department : String
  createdAt : Int
  updatedAt : Int
  createdYear : Nat
deriving DecidableEq, Repr

/-- A row of the `Courses` table (`course.model.js`). -/
structure CourseRec where
  id : Int
  title : String
  description : Option String
  courseCode : Option String
  department : Option String
  teacherId : Option Int
  createdAt : Int
  updatedAt : Int
deriving DecidableEq, Repr

/-- A row of the `CourseStudent` join table (`models/index.js`); `score` is
`DECIMAL(5,2)`, modelled in hundredths. -/
structure EnrollmentRec where
  studentId : Int
  courseId : Int
  enrollmentDate : Int
  status : String
  grade : Option String
  score : Option Int
deriving DecidableEq, Repr

/-- The relational state: the four tables. -/
structure DB where
  students : List StudentRec
  teachers : List TeacherRec
  courses : List CourseRec
  enrollments : List EnrollmentRec
deriving DecidableEq, Repr

/-- The query string of a list/get request. -/
structure Query where
  limit : Option String
  page : Option String
  sort : Option String
  sortField : Option String
  populate : Option String
deriving DecidableEq, Repr

/-- A database query issued by a controller, as logged by the embedding:
`countQ` for `Model.count()`, `findAllQ` for `Model.findAll(...)` with the
order, limit, offset and includes it was given. -/
inductive DbQuery where
  | countQ (model : ModelName)
  | findAllQ (model : ModelName) (field : String) (dir : SortDir)
      (limit offset : Int) (includes : List IncludeSpec)
deriving DecidableEq, Repr

/-- The `meta` object of a list response envelope; `limit` is present only
in the parametrized controller variants. -/
structure ListMeta where
  totalItems : Nat
  page : Int
  totalPages : Int
  limit : Option Int
deriving DecidableEq, Repr

/-- A list endpoint response: 200 with envelope, 400 with `{error}`, or 500
with `{error}`. -/
inductive ListResp (ρ : Type) where
  | ok (meta : ListMeta) (includes : List IncludeSpec) (data : List ρ)
  | badRequest (error : String)
  | serverError (error : String)
deriving DecidableEq, Repr

/-- Whether a list response is the 400-class validation error. -/
def ListResp.is400 : ListResp ρ → Bool
  | .badRequest _ => true
  | _ => false

/-- The includes attached to a 200 list response ([] otherwise). -/
def ListResp.includesOf : ListResp ρ → List IncludeSpec
  | .ok _ incl _ => incl
  | _ => []

/-- A get-by-id response: 200 with the record (and the includes the query
used), or 404 with `{message}`. -/
inductive GetResp (ρ : Type) where
  | ok (includes : List IncludeSpec) (body : ρ)
  | notFound (message : String)
deriving DecidableEq, Repr

/-- A create/update/delete response: 201/200 with a body, 200 with a
message, or 404 with `{message}`. -/
inductive CrudResp (ρ : Type) where
  | created (body : ρ)
  | ok (body : ρ)
  | okMsg (message : String)
  | notFound (message : String)
deriving DecidableEq, Repr

/-- `Math.ceil(total / limit)` as the controllers compute it; stated for the
positive limits reachable in a 200 response. -/
def jsCeilDiv (total : Nat) (limit : Int) : Int :=
  ((total : Int) + limit - 1) / limit

/-- The shared tail of every list controller: run `findAll` on the ordered
table and wrap the result in the `{meta, data}` envelope, or 500 when the
database rejects the query. -/
def runList (sorted : List ρ) (total : Nat) (limit page : Int)
    (limitMeta : Option Int) (includes : List IncludeSpec)
    (qlog : List DbQuery) : ListResp ρ × List DbQuery :=
  match findAllRows sorted limit ((page - 1) * limit) with
  | .error e => (.serverError e, qlog)
  | .ok rows =>
    (.ok ⟨total, page, jsCeilDiv total limit, limitMeta⟩ includes rows, qlog)

/-- `Model.findByPk(id)`. -/
def findByPk (getId : ρ → Int) (table : List ρ) (i : Int) : Option ρ :=
  table.find? (fun r => getId r == i)

/-- `instance.destroy()` after a `findByPk(id)`: the row with this primary
key is removed. -/
def destroyRec (getId : ρ → Int) (table : List ρ) (i : Int) : List ρ :=
  table.filter (fun r => !(getId r == i))

/-! ### Model hooks: generated identifiers -/

/-- `beforeCreate` hook of the Student model: when `studentId` is falsy,
set it to `STU<year><count+1 padded to 4>` where `count` is the current
total row count of Students. -/
def studentBeforeCreate (year : Nat) (tableCount : Nat)
    (provided : Option String) : Option String :=
  if jsFalsy provided then
    some ("STU" ++ toString year ++ padStart (toString (tableCount + 1)) 4 '0')
  else provided

/-- `beforeCreate` hook of the Teacher model: `EMP<year><count+1 padded to 4>`. -/
def teacherBeforeCreate (year : Nat) (tableCount : Nat)
    (provided : Option String) : Option String :=
  if jsFalsy provided then
    some ("EMP" ++ toString year ++ padStart (toString (tableCount + 1)) 4 '0')
  else provided

/-- The course-code prefix: `department.substring(0,3).toUpperCase()` when
the department is truthy, otherwise `GEN`. -/
def courseDeptTag (dept : Option String) : String :=
  match dept with
  | none => "GEN"
  | some d => if d.isEmpty then "GEN" else toUpperStr (d.take 3)

/-- `beforeCreate` hook of the Course model: `<dept tag><count+1 padded to 3>`
(no year component). -/
def courseBeforeCreate (tableCount : Nat) (provided dept : Option String) :
    Option String :=
  if jsFalsy provided then
    some (courseDeptTag dept ++ padStart (toString (tableCount + 1)) 3 '0')
  else provided

/-- Auto-increment primary key: one more than the largest id in the table. -/
def nextPk (ids : List Int) : Int :=
  ids.foldr (fun a b => max a b) 0 + 1

/-! ### Create operations -/

/-- The creatable fields of a Student request body that the embedding
tracks. -/
structure StudentInput where
  name : String
  email : String
  studentId : Option String
deriving DecidableEq, Repr

/-- Row persisted by `db.Student.create(body)` at clock `now` in calendar
year `year`: the `beforeCreate` hook runs against the current table. -/
def createStudentRec (year : Nat) (now : Int) (table : List StudentRec)
    (inp : StudentInput) : StudentRec :=
  ⟨nextPk (table.map (fun r => r.id)), inp.name, inp.email,
    studentBeforeCreate year table.length inp.studentId, now, now, year⟩

/-- `createStudent` controller: persist and answer 201 with the created row. -/
def createStudent (year : Nat) (now : Int) (db : DB) (inp : StudentInput) :
    CrudResp StudentRec × DB :=
  let r := createStudentRec year now db.students inp
  (.created r, ⟨db.students ++ [r], db.teachers, db.courses, db.enrollments⟩)

/-- The creatable fields of a Teacher request body that the embedding
tracks. -/
structure TeacherInput where
  name : String
  email : String
  department : String
  employeeId : Option String
deriving DecidableEq, Repr

/-- Row persisted by `db.Teacher.create(body)`. -/
def createTeacherRec (year : Nat) (now : Int) (table : List TeacherRec)
    (inp : TeacherInput) : TeacherRec :=
  ⟨nextPk (table.map (fun r => r.id)), inp.name, inp.email,
    teacherBeforeCreate year table.length inp.employeeId, inp.department,
    now, now, year⟩

/-- The creatable fields of a Course request body that the embedding
tracks. -/
structure CourseInput where
  title : String
  description : Option String
  courseCode : Option String
  department : Option String
  teacherId : Option Int
deriving DecidableEq, Repr

/-- Row persisted by `db.Course.create(body)`. -/
def createCourseRec (now : Int) (table : List CourseRec) (inp : CourseInput) :
    CourseRec :=
  ⟨nextPk (table.map (fun r => r.id)), inp.title, inp.description,
    courseBeforeCreate table.length inp.courseCode inp.department,
    inp.department, inp.teacherId, now, now⟩

/-! ### Update bodies

`instance.update(req.body)` overwrites exactly the supplied fields; there is
no `beforeUpdate` hook, so generated identifiers are only rewritten when the
body explicitly carries them. -/

/-- A partial Student update body. -/
structure StudentBody where
  name : Option String
  email : Option String
  studentId : Option String
deriving DecidableEq, Repr

/-- Apply a partial Student update to a row. -/
def applyStudentBody (r : StudentRec) (b : StudentBody) : StudentRec :=
  ⟨r.id, b.name.getD r.name, b.email.getD r.email,
    match b.studentId with
    | none => r.studentId
    | some s => some s,
    r.createdAt, r.updatedAt, r.createdYear⟩

/-- A partial Teacher update body. -/
structure TeacherBody where
  name : Option String
  email : Option String
  department : Option String
  employeeId : Option String
deriving DecidableEq, Repr

/-- Apply a partial Teacher update to a row. -/
def applyTeacherBody (r : TeacherRec) (b : TeacherBody) : TeacherRec :=
  ⟨r.id, b.name.getD r.name, b.email.getD r.email,
    match b.employeeId with
    | none => r.employeeId
    | some s => some s,
    b.department.getD r.department, r.createdAt, r.updatedAt, r.createdYear⟩

/-- A partial Course update body. -/
structure CourseBody where
  title : Option String
  description : Option String
  courseCode : Option String
  department : Option String
  teacherId : Option Int
deriving DecidableEq, Repr

/-- Apply a partial Course update to a row. -/
def applyCourseBody (r : CourseRec) (b : CourseBody) : CourseRec :=
  ⟨r.id, b.title.getD r.title,
    match b.description with
    | none => r.description
    | some s => some s,
    match b.courseCode with
    | none => r.courseCode
    | some s => some s,
    match b.department with
    | none => r.department
    | some s => some s,
    match b.teacherId with
    | none => r.teacherId
    | some i => some i,
    r.createdAt, r.updatedAt⟩

/-! ### Students controller (`student.controller.js`) -/

/-- Sort key of a Student column. -/
def studentSortKey (f : String) (r : StudentRec) : Val :=
  if f == "name" then .str r.name
  else if f == "email" then .str r.email
  else if f == "createdAt" then .int r.createdAt
  else if f == "updatedAt" then .int r.updatedAt
  else .int r.id

/-- The students list `sortBy` whitelist check with fallback to `'id'`. -/
def studentSortField (q : Query) : String :=
  match q.sortField with
  | some s => if ["id", "name", "email", "createdAt", "updatedAt"].contains s then s else "id"
  | none => "id"

/-- `req.query.sort === 'desc' ? 'DESC' : 'ASC'` of the simple variants. -/
def simpleSortDir (q : Query) : SortDir :=
  if q.sort == some "desc" then .desc else .asc

/-- The full-detail Course include of the students endpoints. -/
def studentCoursesFull : IncludeSpec :=
  ⟨.course, some ["id", "title", "description", "teacherId", "createdAt", "updatedAt"], []⟩

/-- The id-only Course include the students endpoints use when `populate`
is not `'courses'`. -/
def studentCoursesIdOnly : IncludeSpec :=
  ⟨.course, some ["id"], []⟩

/-- Include array of the students endpoints: the whole (lower-cased)
`populate` string is compared against `'courses'` as a single token. -/
def studentIncludes (populate : Option String) : List IncludeSpec :=
  if toLowerStr (jsOrElse populate "none") == "courses" then [studentCoursesFull]
  else [studentCoursesIdOnly]

/-- `GET /students`: no range validation; `limit`/`page` fall back to 10/1
on falsy parses, out-of-enum `sort` silently becomes ascending, `sortBy`
falls back to `'id'`. -/
def getAllStudents (q : Query) (db : DB) : ListResp StudentRec × List DbQuery :=
  let limit := parseIntOr q.limit 10
  let page := parseIntOr q.page 1
  let dir := simpleSortDir q
  let field := studentSortField q
  let includes := studentIncludes q.populate
  runList (orderRows studentSortKey field dir db.students) db.students.length
    limit page none includes
    [.countQ .student, .findAllQ .student field dir limit ((page - 1) * limit) includes]

/-- `GET /students/:id`. -/
def getStudentById (q : Query) (db : DB) (i : Int) : GetResp StudentRec :=
  let includes := studentIncludes q.populate
  match findByPk StudentRec.id db.students i with
  | none => .notFound "Not found"
  | some s => .ok includes s

/-- `PUT /students/:id`. -/
def updateStudent (db : DB) (i : Int) (b : StudentBody) :
    CrudResp StudentRec × DB :=
  match findByPk StudentRec.id db.students i with
  | none => (.notFound "Not found", db)
  | some r =>
    let r2 := applyStudentBody r b
    (.ok r2,
      ⟨db.students.map (fun s => if s.id == i then r2 else s),
        db.teachers, db.courses, db.enrollments⟩)

/-- `DELETE /students/:id`. -/
def deleteStudent (db : DB) (i : Int) : CrudResp StudentRec × DB :=
  match findByPk StudentRec.id db.students i with
  | none => (.notFound "Student not found", db)
  | some _ =>
    (.okMsg "Student deleted successfully",
      ⟨destroyRec StudentRec.id db.students i,
        db.teachers, db.courses, db.enrollments⟩)

/-! ### Courses controller (`course.controller.js`, parametrized style) -/

/-- Include array of the courses endpoints: `populate` is split on commas,
entries are trimmed, and membership of `'teacher'`/`'students'`/`'all'`
decides the includes; anything else is ignored. -/
def coursePopIncludes (populate : Option String) : List IncludeSpec :=
  match populate with
  | none => []
  | some p =>
    if p.isEmpty then []
    else
      let opts := splitTrim p
      (if opts.contains "teacher" || opts.contains "all"
        then [IncludeSpec.mk .teacher none []] else [])
        ++ (if opts.contains "students" || opts.contains "all"
            then [IncludeSpec.mk .student none []] else [])

/-- The `ASC`/`DESC` direction the parametrized variants derive from the
validated `sort` parameter (`sort.toUpperCase()`). -/
def paramSortDir (q : Query) : SortDir :=
  if jsOrElse q.sort "desc" == "desc" then SortDir.desc else SortDir.asc

/-- Sort key of a Course column (this controller always orders by
`createdAt`). -/
def courseSortKey (f : String) (r : CourseRec) : Val :=
  if f == "createdAt" then .int r.createdAt else .int r.id

/-- `GET /courses`: validates `limit ∈ [1,100]`, `page ≥ 1` and
`sort ∈ {asc, desc}` after the falsy-fallback parse, then orders by
`createdAt`. -/
def getAllCourses (q : Query) (db : DB) : ListResp CourseRec × List DbQuery :=
  let limit := parseIntOr q.limit 10
  let page := parseIntOr q.page 1
  let sort := jsOrElse q.sort "desc"
  if limit < 1 ∨ 100 < limit then (.badRequest "Limit must be between 1 and 100", [])
  else if page < 1 then (.badRequest "Page must be greater than 0", [])
  else if !(["asc", "desc"].contains sort) then
    (.badRequest "Sort must be either asc or desc", [])
  else
    let includes := coursePopIncludes q.populate
    let dir := paramSortDir q
    runList (orderRows courseSortKey "createdAt" dir db.courses)
      db.courses.length limit page (some limit) includes
      [.countQ .course, .findAllQ .course "createdAt" dir limit ((page - 1) * limit) includes]

/-- `GET /courses/:id`. -/
def getCourseById (q : Query) (db : DB) (i : Int) : GetResp CourseRec :=
  let includes := coursePopIncludes q.populate
  match findByPk CourseRec.id db.courses i with
  | none => .notFound "Course not found"
  | some c => .ok includes c

/-- `PUT /courses/:id`. -/
def updateCourse (db : DB) (i : Int) (b : CourseBody) :
    CrudResp CourseRec × DB :=
  match findByPk CourseRec.id db.courses i with
  | none => (.notFound "Course not found", db)
  | some r =>
    let r2 := applyCourseBody r b
    (.ok r2,
      ⟨db.students, db.teachers,
        db.courses.map (fun c => if c.id == i then r2 else c), db.enrollments⟩)

/-- `DELETE /courses/:id`. -/
def deleteCourse (db : DB) (i : Int) : CrudResp CourseRec × DB :=
  match findByPk CourseRec.id db.courses i with
  | none => (.notFound "Course not found", db)
  | some _ =>
    (.okMsg "Course deleted successfully",
      ⟨db.students, db.teachers, destroyRec CourseRec.id db.courses i,
        db.enrollments⟩)

/-- Sort key of a Teacher column. -/
def teacherSortKey (f : String) (r : TeacherRec) : Val :=
  if f == "name" then .str r.name
  else if f == "department" then .str r.department
  else if f == "createdAt" then .int r.createdAt
  else if f == "updatedAt" then .int r.updatedAt
  else .int r.id

namespace TeacherV1

/-! ### Simple teachers controller variant (no validation, fixed include) -/

/-- The teachers list `sortBy` whitelist check with fallback to `'id'`. -/
def teacherSortField (q : Query) : String :=
  match q.sortField with
  | some s => if ["id", "name", "department", "createdAt", "updatedAt"].contains s then s else "id"
  | none => "id"

/-- The fixed Course include of the simple teachers list. -/
def coursesShort : IncludeSpec :=
  ⟨.course, some ["id", "title", "description"], []⟩

/-- `GET /teachers` (simple variant): no range validation; always includes
the short Course projection and projects teacher attributes (recorded in the
query log, not applied to rows). -/
def getAllTeachers (q : Query) (db : DB) : ListResp TeacherRec × List DbQuery :=
  let limit := parseIntOr q.limit 10
  let page := parseIntOr q.page 1
  let dir := simpleSortDir q
  let field := teacherSortField q
  runList (orderRows teacherSortKey field dir db.teachers) db.teachers.length
    limit page none [coursesShort]
    [.countQ .teacher, .findAllQ .teacher field dir limit ((page - 1) * limit) [coursesShort]]

/-- `GET /teachers/:id` (simple variant): single-token `populate` compared
whole against `'courses'`. -/
def getTeacherById (q : Query) (db : DB) (i : Int) : GetResp TeacherRec :=
  let includes :=
    if toLowerStr (jsOrElse q.populate "none") == "courses" then [coursesShort] else []
  match findByPk TeacherRec.id db.teachers i with
  | none => .notFound "Not found"
  | some t => .ok includes t

/-- `PUT /teachers/:id` (simple variant). -/
def updateTeacher (db : DB) (i : Int) (b : TeacherBody) :
    CrudResp TeacherRec × DB :=
  match findByPk TeacherRec.id db.teachers i with
  | none => (.notFound "Not found", db)
  | some r =>
    let r2 := applyTeacherBody r b
    (.ok r2,
      ⟨db.students, db.teachers.map (fun t => if t.id == i then r2 else t),
        db.courses, db.enrollments⟩)

/-- `DELETE /teachers/:id` (simple variant). -/
def deleteTeacher (db : DB) (i : Int) : CrudResp TeacherRec × DB :=
  match findByPk TeacherRec.id db.teachers i with
  | none => (.notFound "Not found", db)
  | some _ =>
    (.okMsg "Deleted successfully",
      ⟨db.students, destroyRec TeacherRec.id db.teachers i, db.courses,
        db.enrollments⟩)

end TeacherV1

namespace TeacherV2

/-! ### Parametrized teachers controller variant (validation, nested include) -/

/-- Include array of the parametrized teachers endpoints: comma-split,
trimmed; `'courses'` or `'all'` adds a Course include that itself includes
the Students enrolled in each course (a second level of eager loading). -/
def teacherPopIncludes (populate : Option String) : List IncludeSpec :=
  match populate with
  | none => []
  | some p =>
    if p.isEmpty then []
    else
      let opts := splitTrim p
      if opts.contains "courses" || opts.contains "all" then
        [IncludeSpec.mk .course none [.student]]
      else []

/-- `GET /teachers` (parametrized variant): validates `limit`, `page`,
`sort` exactly as the courses list does, orders by `createdAt`. -/
def getAllTeachers (q : Query) (db : DB) : ListResp TeacherRec × List DbQuery :=
  let limit := parseIntOr q.limit 10
  let page := parseIntOr q.page 1
  let sort := jsOrElse q.sort "desc"
  if limit < 1 ∨ 100 < limit then (.badRequest "Limit must be between 1 and 100", [])
  else if page < 1 then (.badRequest "Page must be greater than 0", [])
  else if !(["asc", "desc"].contains sort) then
    (.badRequest "Sort must be either asc or desc", [])
  else
    let includes := teacherPopIncludes q.populate
    let dir := paramSortDir q
    runList (orderRows teacherSortKey "createdAt" dir db.teachers)
      db.teachers.length limit page (some limit) includes
      [.countQ .teacher, .findAllQ .teacher "createdAt" dir limit ((page - 1) * limit) includes]

/-- `GET /teachers/:id` (parametrized variant). -/
def getTeacherById (q : Query) (db : DB) (i : Int) : GetResp TeacherRec :=
  let includes := teacherPopIncludes q.populate
  match findByPk TeacherRec.id db.teachers i with
  | none => .notFound "Teacher not found"
  | some t => .ok includes t

/-- `PUT /teachers/:id` (parametrized variant). -/
def updateTeacher (db : DB) (i : Int) (b : TeacherBody) :
    CrudResp TeacherRec × DB :=
  match findByPk TeacherRec.id db.teachers i with
  | none => (.notFound "Teacher not found", db)
  | some r =>
    let r2 := applyTeacherBody r b
    (.ok r2,
      ⟨db.students, db.teachers.map (fun t => if t.id == i then r2 else t),
        db.courses, db.enrollments⟩)

/-- `DELETE /teachers/:id` (parametrized variant). -/
def deleteTeacher (db : DB) (i : Int) : CrudResp TeacherRec × DB :=
  match findByPk TeacherRec.id db.teachers i with
  | none => (.notFound "Teacher not found", db)
  | some _ =>
    (.okMsg "Teacher deleted successfully",
      ⟨db.students, destroyRec TeacherRec.id db.teachers i, db.courses,
        db.enrollments⟩)

end TeacherV2

/-! ### Enrollment join table -/

/-- Whether two join rows collide on the unique `[StudentId, CourseId]`
index. -/
def samePair (a b : EnrollmentRec) : Bool :=
  a.studentId == b.studentId && a.courseId == b.courseId

/-- Insert into `CourseStudent`: the store enforces the unique index on
`[StudentId, CourseId]` declared in `models/index.js`, rejecting a second
row for an existing pair. -/
def insertEnrollment (t : List EnrollmentRec) (e : EnrollmentRec) :
    Except String (List EnrollmentRec) :=
  if t.any (fun r => samePair r e) then .error "Validation error"
  else .ok (t ++ [e])

/-- Remove the enrollments of a (student, course) pair. -/
def removeEnrollment (t : List EnrollmentRec) (sid cid : Int) :
    List EnrollmentRec :=
  t.filter (fun r => !(r.studentId == sid && r.courseId == cid))

/-- Join-table states reachable through the store's insert/remove
operations. -/
inductive EnrollReachable : List EnrollmentRec → Prop where
  | empty : EnrollReachable []
  | insertStep {t t2 : List EnrollmentRec} {e : EnrollmentRec} :
      EnrollReachable t → insertEnrollment t e = .ok t2 → EnrollReachable t2
  | removeStep {t : List EnrollmentRec} {sid cid : Int} :
      EnrollReachable t → EnrollReachable (removeEnrollment t sid cid)

/-- At most one join row per (student, course) pair. -/
def pairUnique (t : List EnrollmentRec) : Prop :=
  List.Pairwise (fun a b => samePair a b = false) t

/-! ### Helper lemmas -/

theorem parseIntOr_ne_zero (s : Option String) {d : Int} (hd : d ≠ 0) :
    parseIntOr s d ≠ 0 := by
  rcases s with _ | str
  · exact hd
  · rcases hjs : jsParseInt str with _ | n
    · simpa [parseIntOr, hjs] using hd
    · by_cases hn : n = 0
      · simpa [parseIntOr, hjs, hn] using hd
      · simp [parseIntOr, hjs, hn]

/-- Inversion of a 200 list response: the parameters were accepted by the
database, and the envelope is built from the given totals and page of
rows. -/
theorem runList_ok {ρ : Type} {sorted : List ρ} {total : Nat}
    {limit page : Int} {limitMeta : Option Int} {includes : List IncludeSpec}
    {qlog qlog2 : List DbQuery} {meta : ListMeta} {incl : List IncludeSpec}
    {data : List ρ} (hl : limit ≠ 0)
    (h : runList sorted total limit page limitMeta includes qlog
      = (.ok meta incl data, qlog2)) :
    1 ≤ limit ∧ 0 ≤ (page - 1) * limit ∧
    meta = ⟨total, page, jsCeilDiv total limit, limitMeta⟩ ∧
    incl = includes ∧ qlog2 = qlog ∧
    data = (sorted.drop ((page - 1) * limit).toNat).take limit.toNat := by
  unfold runList findAllRows at h
  split_ifs at h with hc
  · simp at h
  · push_neg at hc
    simp only [Prod.mk.injEq, ListResp.ok.injEq] at h
    obtain ⟨⟨hm, hi, hd⟩, hq⟩ := h
    exact ⟨by omega, by omega, hm.symm, hi.symm, hq.symm, hd.symm⟩

/-- For positive `limit`, the controllers' `Math.ceil(total / limit)` is the
ceiling of the division: the natural-number formula, at least `total` when
multiplied back, and less than `total + limit`. -/
theorem jsCeilDiv_spec (t : Nat) (l : Int) (hl : 1 ≤ l) :
    jsCeilDiv t l = ((t + l.toNat - 1) / l.toNat : Nat) ∧
    (t : Int) ≤ jsCeilDiv t l * l ∧ jsCeilDiv t l * l < t + l := by
  obtain ⟨k, rfl⟩ : ∃ k : Nat, l = k := ⟨l.toNat, (Int.toNat_of_nonneg (by omega)).symm⟩
  have hk : 1 ≤ k := by exact_mod_cast hl
  have hcast : ((t : Int) + k - 1) = ((t + k - 1 : Nat) : Int) := by
    omega
  have hform : jsCeilDiv t k = ((t + k - 1) / k : Nat) := by
    unfold jsCeilDiv
    rw [hcast]
    exact (Int.natCast_div _ _).symm
  have hdm := Nat.div_add_mod (t + k - 1) k
  have hmod : (t + k - 1) % k < k := Nat.mod_lt _ (by omega)
  have hA : t ≤ k * ((t + k - 1) / k) := by omega
  have hB : k * ((t + k - 1) / k) < t + k := by omega
  refine ⟨by simpa using hform, ?_, ?_⟩
  · rw [hform, mul_comm]
    exact_mod_cast hA
  · rw [hform, mul_comm]
    exact_mod_cast hB

/-- After destroying a primary key, looking it up fails. -/
theorem findByPk_destroyRec (getId : ρ → Int) (t : List ρ) (i : Int) :
    findByPk getId (destroyRec getId t i) i = none := by
  unfold findByPk destroyRec
  rw [List.find?_eq_none]
  intro x hx
  have hmem := List.mem_filter.mp hx
  simpa using hmem.2

theorem pairUnique_insert {t t2 : List EnrollmentRec} {e : EnrollmentRec}
    (hu : pairUnique t) (h : insertEnrollment t e = .ok t2) : pairUnique t2 := by
  unfold insertEnrollment at h
  by_cases hc : (t.any fun r => samePair r e) = true
  · rw [if_pos hc] at h
    exact absurd h (by simp)
  · rw [if_neg hc] at h
    injection h with h2
    subst h2
    unfold pairUnique at hu ⊢
    rw [List.pairwise_append]
    refine ⟨hu, by simp, ?_⟩
    intro a ha b hb
    simp only [List.mem_singleton] at hb
    subst hb
    simp only [List.any_eq_true, not_exists, not_and] at hc
    have := hc a ha
    simpa using this

theorem pairUnique_remove {t : List EnrollmentRec} (sid cid : Int)
    (hu : pairUnique t) : pairUnique (removeEnrollment t sid cid) :=
  List.Pairwise.sublist (List.filter_sublist t) hu

/-- A 200 list envelope never comes out of `runList` as a 400. -/
theorem runList_is400 (sorted : List ρ) (total : Nat) (limit page : Int)
    (limitMeta : Option Int) (includes : List IncludeSpec)
    (qlog : List DbQuery) :
    (runList sorted total limit page limitMeta includes qlog).1.is400 = false := by
  unfold runList
  cases findAllRows sorted limit ((page - 1) * limit) <;> rfl

/-! ### Concrete sample data -/

/-- The empty query string. -/
def q0 : Query := ⟨none, none, none, none, none⟩

/-- The empty database. -/
def db0 : DB := ⟨[], [], [], []⟩

/-- A student row created in 2025 (its generated id carries that year). -/
def stu2025 : StudentRec :=
  ⟨1, "Old Student", "old@x.com", some "STU20250001", 100, 100, 2025⟩

/-- A database whose only student was created in 2025. -/
def db1 : DB := ⟨[stu2025], [], [], []⟩

/-- A sample enrollment row. -/
def enr0 : EnrollmentRec := ⟨1, 2, 0, "enrolled", none, none⟩

/-! ### Claims -/

/-- C1, counterexample: the students list performs no range validation.
With `limit=200` (outside `[1,100]`) it answers 200, not a 400-class error,
and it executes both the count and the findAll query. -/
theorem c1_counterexample :
    parseIntOr (some "200") 10 = 200 ∧
    (getAllStudents ⟨some "200", none, none, none, none⟩ db0).1.is400 = false ∧
    (getAllStudents ⟨some "200", none, none, none, none⟩ db0).2
      = [.countQ .student,
        .findAllQ .student "id" .asc 200 0 [studentCoursesIdOnly]] := by
  decide

/-- C1 (amended): in the parametrized list variants (`GET /courses` and the
parametrized `GET /teachers`), a parsed limit outside `[1,100]` or a parsed
page below 1 yields the 400-class validation error with no database query
executed; the simple variants (`GET /students` and the simple
`GET /teachers`) perform no such validation. -/
theorem c1_range_validation (q : Query) (db : DB)
    (h : parseIntOr q.limit 10 < 1 ∨ 100 < parseIntOr q.limit 10 ∨
      parseIntOr q.page 1 < 1) :
    ((getAllCourses q db).1.is400 = true ∧ (getAllCourses q db).2 = []) ∧
    ((TeacherV2.getAllTeachers q db).1.is400 = true ∧
      (TeacherV2.getAllTeachers q db).2 = []) := by
  by_cases h1 : parseIntOr q.limit 10 < 1 ∨ 100 < parseIntOr q.limit 10
  · simp [getAllCourses, TeacherV2.getAllTeachers, h1, ListResp.is400]
  · have h2 : parseIntOr q.page 1 < 1 := by
      rcases h with h | h | h
      · exact absurd (Or.inl h) h1
      · exact absurd (Or.inr h) h1
      · exact h
    simp [getAllCourses, TeacherV2.getAllTeachers, h1, h2, ListResp.is400]

/-- C1, witness: `limit=200` on the validating variants gives the 400 with
no query. -/
theorem c1_witness :
    ((getAllCourses ⟨some "200", none, none, none, none⟩ db0).1.is400 = true ∧
      (getAllCourses ⟨some "200", none, none, none, none⟩ db0).2 = []) ∧
    ((TeacherV2.getAllTeachers ⟨some "200", none, none, none, none⟩ db0).1.is400 = true ∧
      (TeacherV2.getAllTeachers ⟨some "200", none, none, none, none⟩ db0).2 = []) :=
  c1_range_validation ⟨some "200", none, none, none, none⟩ db0 (by decide)

/-- C2, counterexample: on the students list an out-of-enum `sort` value
(`'bogus'`) does not produce a 400-class error; it is silently coerced to
ascending order. -/
theorem c2_counterexample :
    (["asc", "desc"].contains "bogus") = false ∧
    (getAllStudents ⟨none, none, some "bogus", none, none⟩ db0).1.is400 = false ∧
    simpleSortDir ⟨none, none, some "bogus", none, none⟩ = SortDir.asc := by
  decide

/-- C2 (amended): an out-of-enum `sort` yields a 400-class error only in the
parametrized variants; the simple variants silently coerce any `sort` other
than `'desc'` to ascending and never answer 400.  A `sortBy` outside the
whitelist is silently replaced by `'id'` in the simple variants. -/
theorem c2_sort_handling :
    (∀ q db, (["asc", "desc"].contains (jsOrElse q.sort "desc")) = false →
      (getAllCourses q db).1.is400 = true ∧
      (TeacherV2.getAllTeachers q db).1.is400 = true) ∧
    (∀ q : Query, q.sort ≠ some "desc" → simpleSortDir q = SortDir.asc) ∧
    (∀ q s, q.sortField = some s →
      (["id", "name", "email", "createdAt", "updatedAt"].contains s) = false →
      studentSortField q = "id") ∧
    (∀ q s, q.sortField = some s →
      (["id", "name", "department", "createdAt", "updatedAt"].contains s) = false →
      TeacherV1.teacherSortField q = "id") ∧
    (∀ q db, (getAllStudents q db).1.is400 = false ∧
      (TeacherV1.getAllTeachers q db).1.is400 = false) := by
  refine ⟨?_, ?_, ?_, ?_, ?_⟩
  · intro q db h
    constructor
    · simp only [getAllCourses]
      split_ifs with h1 h2 h3 <;> simp_all [ListResp.is400, runList_is400]
    · simp only [TeacherV2.getAllTeachers]
      split_ifs with h1 h2 h3 <;> simp_all [ListResp.is400, runList_is400]
  · intro q h
    unfold simpleSortDir
    rw [if_neg]
    simpa using h
  · intro q s hs h
    unfold studentSortField
    rw [hs]
    show (if ["id", "name", "email", "createdAt", "updatedAt"].contains s = true
      then s else "id") = "id"
    rw [if_neg (by rw [h]; simp)]
  · intro q s hs h
    unfold TeacherV1.teacherSortField
    rw [hs]
    show (if ["id", "name", "department", "createdAt", "updatedAt"].contains s = true
      then s else "id") = "id"
    rw [if_neg (by rw [h]; simp)]
  · intro q db
    constructor
    · simp only [getAllStudents]
      exact runList_is400 _ _ _ _ _ _ _
    · simp only [TeacherV1.getAllTeachers]
      exact runList_is400 _ _ _ _ _ _ _

/-- C2, witness: `sort='bogus'` is rejected with 400 by the parametrized
variants. -/
theorem c2_witness :
    (getAllCourses ⟨none, none, some "bogus", none, none⟩ db0).1.is400 = true ∧
    (TeacherV2.getAllTeachers ⟨none, none, some "bogus", none, none⟩ db0).1.is400 = true :=
  c2_sort_handling.1 ⟨none, none, some "bogus", none, none⟩ db0 (by decide)

/-- C3: every 200 list response of every variant satisfies
`totalPages = ceil(totalItems/limit)` (stated as the rounded-up quotient
together with its ceiling characterization), carries at most `limit`
records, and returns exactly the page at offset `(page-1)*limit` of the
ordered table. -/
theorem c3_pagination :
    (∀ q db meta incl data qlog,
      getAllStudents q db = (.ok meta incl data, qlog) →
      meta.totalPages
          = ((meta.totalItems + (parseIntOr q.limit 10).toNat - 1)
            / (parseIntOr q.limit 10).toNat : Nat) ∧
      (meta.totalItems : Int) ≤ meta.totalPages * parseIntOr q.limit 10 ∧
      meta.totalPages * parseIntOr q.limit 10
          < meta.totalItems + parseIntOr q.limit 10 ∧
      data.length ≤ (parseIntOr q.limit 10).toNat ∧
      meta.page = parseIntOr q.page 1 ∧
      data = ((orderRows studentSortKey (studentSortField q) (simpleSortDir q)
          db.students).drop
          ((parseIntOr q.page 1 - 1) * parseIntOr q.limit 10).toNat).take
          (parseIntOr q.limit 10).toNat) ∧
    (∀ q db meta incl data qlog,
      getAllCourses q db = (.ok meta incl data, qlog) →
      meta.totalPages
          = ((meta.totalItems + (parseIntOr q.limit 10).toNat - 1)
            / (parseIntOr q.limit 10).toNat : Nat) ∧
      (meta.totalItems : Int) ≤ meta.totalPages * parseIntOr q.limit 10 ∧
      meta.totalPages * parseIntOr q.limit 10
          < meta.totalItems + parseIntOr q.limit 10 ∧
      data.length ≤ (parseIntOr q.limit 10).toNat ∧
      meta.page = parseIntOr q.page 1 ∧
      data = ((orderRows courseSortKey "createdAt" (paramSortDir q)
          db.courses).drop
          ((parseIntOr q.page 1 - 1) * parseIntOr q.limit 10).toNat).take
          (parseIntOr q.limit 10).toNat) ∧
    (∀ q db meta incl data qlog,
      TeacherV1.getAllTeachers q db = (.ok meta incl data, qlog) →
      meta.totalPages
          = ((meta.totalItems + (parseIntOr q.limit 10).toNat - 1)
            / (parseIntOr q.limit 10).toNat : Nat) ∧
      (meta.totalItems : Int) ≤ meta.totalPages * parseIntOr q.limit 10 ∧
      meta.totalPages * parseIntOr q.limit 10
          < meta.totalItems + parseIntOr q.limit 10 ∧
      data.length ≤ (parseIntOr q.limit 10).toNat ∧
      meta.page = parseIntOr q.page 1 ∧
      data = ((orderRows teacherSortKey (TeacherV1.teacherSortField q)
          (simpleSortDir q) db.teachers).drop
          ((parseIntOr q.page 1 - 1) * parseIntOr q.limit 10).toNat).take
          (parseIntOr q.limit 10).toNat) ∧
    (∀ q db meta incl data qlog,
      TeacherV2.getAllTeachers q db = (.ok meta incl data, qlog) →
      meta.totalPages
          = ((meta.totalItems + (parseIntOr q.limit 10).toNat - 1)
            / (parseIntOr q.limit 10).toNat : Nat) ∧
      (meta.totalItems : Int) ≤ meta.totalPages * parseIntOr q.limit 10 ∧
      meta.totalPages * parseIntOr q.limit 10
          < meta.totalItems + parseIntOr q.limit 10 ∧
      data.length ≤ (parseIntOr q.limit 10).toNat ∧
      meta.page = parseIntOr q.page 1 ∧
      data = ((orderRows teacherSortKey "createdAt" (paramSortDir q)
          db.teachers).drop
          ((parseIntOr q.page 1 - 1) * parseIntOr q.limit 10).toNat).take
          (parseIntOr q.limit 10).toNat) := by
  refine ⟨?_, ?_, ?_, ?_⟩
  · intro q db meta incl data qlog h
    have hl0 : parseIntOr q.limit 10 ≠ 0 := parseIntOr_ne_zero _ (by norm_num)
    simp only [getAllStudents] at h
    obtain ⟨h1, h2, hm, hi, hq, hd⟩ := runList_ok hl0 h
    subst hm
    obtain ⟨hf, hle, hlt⟩ := jsCeilDiv_spec db.students.length _ h1
    refine ⟨hf, hle, hlt, ?_, rfl, hd⟩
    rw [hd, List.length_take]
    exact min_le_left _ _
  · intro q db meta incl data qlog h
    have hl0 : parseIntOr q.limit 10 ≠ 0 := parseIntOr_ne_zero _ (by norm_num)
    simp only [getAllCourses] at h
    split_ifs at h with h1 h2 h3
    · simp at h
    · simp at h
    · simp at h
    · obtain ⟨hg1, hg2, hm, hi, hq, hd⟩ := runList_ok hl0 h
      subst hm
      obtain ⟨hf, hle, hlt⟩ := jsCeilDiv_spec db.courses.length _ hg1
      refine ⟨hf, hle, hlt, ?_, rfl, hd⟩
      rw [hd, List.length_take]
      exact min_le_left _ _
  · intro q db meta incl data qlog h
    have hl0 : parseIntOr q.limit 10 ≠ 0 := parseIntOr_ne_zero _ (by norm_num)
    simp only [TeacherV1.getAllTeachers] at h
    obtain ⟨h1, h2, hm, hi, hq, hd⟩ := runList_ok hl0 h
    subst hm
    obtain ⟨hf, hle, hlt⟩ := jsCeilDiv_spec db.teachers.length _ h1
    refine ⟨hf, hle, hlt, ?_, rfl, hd⟩
    rw [hd, List.length_take]
    exact min_le_left _ _
  · intro q db meta incl data qlog h
    have hl0 : parseIntOr q.limit 10 ≠ 0 := parseIntOr_ne_zero _ (by norm_num)
    simp only [TeacherV2.getAllTeachers] at h
    split_ifs at h with h1 h2 h3
    · simp at h
    · simp at h
    · simp at h
    · obtain ⟨hg1, hg2, hm, hi, hq, hd⟩ := runList_ok hl0 h
      subst hm
      obtain ⟨hf, hle, hlt⟩ := jsCeilDiv_spec db.teachers.length _ hg1
      refine ⟨hf, hle, hlt, ?_, rfl, hd⟩
      rw [hd, List.length_take]
      exact min_le_left _ _

/-- C3, witness: the default students list over a one-row table. -/
theorem c3_witness :
    getAllStudents q0 db1
      = (.ok ⟨1, 1, 1, none⟩ [studentCoursesIdOnly] [stu2025],
        [.countQ .student, .findAllQ .student "id" .asc 10 0 [studentCoursesIdOnly]]) ∧
    ([stu2025] : List StudentRec).length ≤ (parseIntOr q0.limit 10).toNat :=
  ⟨by decide,
    (c3_pagination.1 q0 db1 ⟨1, 1, 1, none⟩ [studentCoursesIdOnly] [stu2025]
        [.countQ .student, .findAllQ .student "id" .asc 10 0 [studentCoursesIdOnly]]
        (by decide)).2.2.2.1⟩

/-- C4: when the identifying code is absent at creation, the persisted code
is the type tag (`STU`/`EMP`, or the 3-letter upper-cased department /
`GEN` for courses), then the current year for Student/Teacher, then the
current row count of that entity plus one, zero-padded (width 4 for
Student/Teacher, 3 for Course); and an update whose body does not carry the
code field leaves the stored code untouched (there is no recomputation
hook). -/
theorem c4_generated_codes :
    (∀ year now table inp, jsFalsy inp.studentId = true →
      (createStudentRec year now table inp).studentId
        = some ("STU" ++ toString year
          ++ padStart (toString (table.length + 1)) 4 '0')) ∧
    (∀ year now table inp, jsFalsy inp.employeeId = true →
      (createTeacherRec year now table inp).employeeId
        = some ("EMP" ++ toString year
          ++ padStart (toString (table.length + 1)) 4 '0')) ∧
    (∀ now table inp, jsFalsy inp.courseCode = true →
      (createCourseRec now table inp).courseCode
        = some (courseDeptTag inp.department
          ++ padStart (toString (table.length + 1)) 3 '0')) ∧
    (∀ r b, b.studentId = none →
      (applyStudentBody r b).studentId = r.studentId) ∧
    (∀ r b, b.employeeId = none →
      (applyTeacherBody r b).employeeId = r.employeeId) ∧
    (∀ r b, b.courseCode = none →
      (applyCourseBody r b).courseCode = r.courseCode) := by
  refine ⟨?_, ?_, ?_, ?_, ?_, ?_⟩
  · intro year now table inp h
    simp [createStudentRec, studentBeforeCreate, h]
  · intro year now table inp h
    simp [createTeacherRec, teacherBeforeCreate, h]
  · intro now table inp h
    simp [createCourseRec, courseBeforeCreate, h]
  · intro r b h
    simp [applyStudentBody, h]
  · intro r b h
    simp [applyTeacherBody, h]
  · intro r b h
    simp [applyCourseBody, h]

/-- C4, witness: creating the first student of 2026 without a `studentId`. -/
theorem c4_witness :
    jsFalsy (none : Option String) = true ∧
    (createStudentRec 2026 0 [] ⟨"John Doe", "john@x.com", none⟩).studentId
      = some ("STU" ++ toString 2026 ++ padStart (toString (0 + 1)) 4 '0') :=
  ⟨by decide,
    c4_generated_codes.1 2026 0 [] ⟨"John Doe", "john@x.com", none⟩ (by decide)⟩

/-- C5, counterexample: with one student created in 2025 and none in 2026,
the first 2026 creation without a `studentId` is persisted as
`STU20260002`, not `STU20260001`: the numeric component continues the
global row count instead of restarting each year. -/
theorem c5_counterexample :
    (db1.students.all fun r => r.createdYear != 2026) = true ∧
    (createStudent 2026 200 db1 ⟨"John Doe", "john@x.com", none⟩).1
      = .created ⟨2, "John Doe", "john@x.com", some "STU20260002", 200, 200, 2026⟩ ∧
    some "STU20260002" ≠ some ("STU" ++ toString 2026 ++ "0001") := by
  decide

/-- C5 (amended): a creation without a `studentId` answers 201 with the
hook-generated id; the numeric suffix is the total current student count
plus one (regardless of the creation years of the existing rows), so it is
`STU<year>0001` exactly when the whole table is empty. -/
theorem c5_generated_sequence (year : Nat) (now : Int) (db : DB)
    (inp : StudentInput) (h : jsFalsy inp.studentId = true) :
    (createStudent year now db inp).1
      = .created (createStudentRec year now db.students inp) ∧
    (createStudentRec year now db.students inp).studentId
      = some ("STU" ++ toString year
        ++ padStart (toString (db.students.length + 1)) 4 '0') ∧
    (db.students = [] →
      (createStudentRec year now db.students inp).studentId
        = some ("STU" ++ toString year ++ "0001")) := by
  refine ⟨rfl, ?_, ?_⟩
  · simp [createStudentRec, studentBeforeCreate, h]
  · intro he
    have hpad : padStart (toString (1 : Nat)) 4 '0' = "0001" := by decide
    simp [createStudentRec, studentBeforeCreate, h, he, hpad]

/-- C5, witness: on the empty table the generated id is `STU<year>0001`. -/
theorem c5_witness :
    jsFalsy (none : Option String) = true ∧
    (createStudentRec 2026 0 db0.students ⟨"John Doe", "john@x.com", none⟩).studentId
      = some ("STU" ++ toString 2026 ++ "0001") :=
  ⟨by decide,
    (c5_generated_sequence 2026 0 db0 ⟨"John Doe", "john@x.com", none⟩
      (by decide)).2.2 (by decide)⟩

/-- C6: any GetById/Update/Delete against an id with no matching row
answers 404 and leaves the database unchanged, for every entity and both
teacher controller variants; and a Delete of an existing id answers the
success message, after which deleting the same id again answers 404. -/
theorem c6_crud_not_found :
    (∀ db i q b, findByPk StudentRec.id db.students i = none →
      getStudentById q db i = .notFound "Not found" ∧
      updateStudent db i b = (.notFound "Not found", db) ∧
      deleteStudent db i = (.notFound "Student not found", db)) ∧
    (∀ db i q b, findByPk CourseRec.id db.courses i = none →
      getCourseById q db i = .notFound "Course not found" ∧
      updateCourse db i b = (.notFound "Course not found", db) ∧
      deleteCourse db i = (.notFound "Course not found", db)) ∧
    (∀ db i q b, findByPk TeacherRec.id db.teachers i = none →
      TeacherV1.getTeacherById q db i = .notFound "Not found" ∧
      TeacherV1.updateTeacher db i b = (.notFound "Not found", db) ∧
      TeacherV1.deleteTeacher db i = (.notFound "Not found", db) ∧
      TeacherV2.getTeacherById q db i = .notFound "Teacher not found" ∧
      TeacherV2.updateTeacher db i b = (.notFound "Teacher not found", db) ∧
      TeacherV2.deleteTeacher db i = (.notFound "Teacher not found", db)) ∧
    (∀ db i r, findByPk StudentRec.id db.students i = some r →
      (deleteStudent db i).1 = .okMsg "Student deleted successfully" ∧
      (deleteStudent (deleteStudent db i).2 i).1
        = .notFound "Student not found") ∧
    (∀ db i r, findByPk CourseRec.id db.courses i = some r →
      (deleteCourse db i).1 = .okMsg "Course deleted successfully" ∧
      (deleteCourse (deleteCourse db i).2 i).1
        = .notFound "Course not found") ∧
    (∀ db i r, findByPk TeacherRec.id db.teachers i = some r →
      (TeacherV2.deleteTeacher db i).1 = .okMsg "Teacher deleted successfully" ∧
      (TeacherV2.deleteTeacher (TeacherV2.deleteTeacher db i).2 i).1
        = .notFound "Teacher not found") := by
  refine ⟨?_, ?_, ?_, ?_, ?_, ?_⟩
  · intro db i q b h
    exact ⟨by simp [getStudentById, h], by simp [updateStudent, h],
      by simp [deleteStudent, h]⟩
  · intro db i q b h
    exact ⟨by simp [getCourseById, h], by simp [updateCourse, h],
      by simp [deleteCourse, h]⟩
  · intro db i q b h
    exact ⟨by simp [TeacherV1.getTeacherById, h],
      by simp [TeacherV1.updateTeacher, h],
      by simp [TeacherV1.deleteTeacher, h],
      by simp [TeacherV2.getTeacherById, h],
      by simp [TeacherV2.updateTeacher, h],
      by simp [TeacherV2.deleteTeacher, h]⟩
  · intro db i r h
    have hfirst : deleteStudent db i
        = (.okMsg "Student deleted successfully",
          ⟨destroyRec StudentRec.id db.students i, db.teachers, db.courses,
            db.enrollments⟩) := by
      simp [deleteStudent, h]
    refine ⟨by rw [hfirst], ?_⟩
    rw [hfirst]
    simp [deleteStudent, findByPk_destroyRec]
  · intro db i r h
    have hfirst : deleteCourse db i
        = (.okMsg "Course deleted successfully",
          ⟨db.students, db.teachers, destroyRec CourseRec.id db.courses i,
            db.enrollments⟩) := by
      simp [deleteCourse, h]
    refine ⟨by rw [hfirst], ?_⟩
    rw [hfirst]
    simp [deleteCourse, findByPk_destroyRec]
  · intro db i r h
    have hfirst : TeacherV2.deleteTeacher db i
        = (.okMsg "Teacher deleted successfully",
          ⟨db.students, destroyRec TeacherRec.id db.teachers i, db.courses,
            db.enrollments⟩) := by
      simp [TeacherV2.deleteTeacher, h]
    refine ⟨by rw [hfirst], ?_⟩
    rw [hfirst]
    simp [TeacherV2.deleteTeacher, findByPk_destroyRec]

/-- C6, witness: deleting student 1 twice on the one-student database. -/
theorem c6_witness :
    (deleteStudent db1 1).1 = .okMsg "Student deleted successfully" ∧
    (deleteStudent (deleteStudent db1 1).2 1).1 = .notFound "Student not found" :=
  c6_crud_not_found.2.2.2.1 db1 1 stu2025 (by decide)

/-- C7, counterexample: the students endpoints do not treat `populate` as a
comma-separated list.  `'courses,extra'` contains the recognized tag
`'courses'`, yet the students list builds only the id-only include it uses
for an absent `populate`, instead of the full eager-load it builds for
`populate='courses'` alone. -/
theorem c7_counterexample :
    (splitTrim "courses,extra").contains "courses" = true ∧
    studentIncludes (some "courses,extra") = [studentCoursesIdOnly] ∧
    studentIncludes (some "courses") = [studentCoursesFull] ∧
    studentCoursesIdOnly ≠ studentCoursesFull ∧
    (getAllStudents ⟨none, none, none, none, some "courses,extra"⟩ db0).1.includesOf
      = [studentCoursesIdOnly] := by
  decide

/-- C7 (amended): the courses endpoints and the parametrized teachers
endpoints interpret `populate` as a trimmed comma-separated list — the
includes depend only on membership of the recognized tags, each recognized
tag triggers its eager-load regardless of accompanying tags, unknown tags
have no effect, and `populate` never influences the 400-validation; the
students endpoints instead compare the whole lower-cased `populate` string
against the single token `'courses'`. -/
theorem c7_populate_semantics :
    (∀ p1 p2 : String, p1.isEmpty = false → p2.isEmpty = false →
      (splitTrim p1).contains "teacher" = (splitTrim p2).contains "teacher" →
      (splitTrim p1).contains "students" = (splitTrim p2).contains "students" →
      (splitTrim p1).contains "all" = (splitTrim p2).contains "all" →
      coursePopIncludes (some p1) = coursePopIncludes (some p2)) ∧
    (∀ p : String, p.isEmpty = false → (splitTrim p).contains "teacher" = true →
      IncludeSpec.mk .teacher none [] ∈ coursePopIncludes (some p)) ∧
    (∀ p : String, p.isEmpty = false → (splitTrim p).contains "students" = true →
      IncludeSpec.mk .student none [] ∈ coursePopIncludes (some p)) ∧
    (∀ p : String, p.isEmpty = false → (splitTrim p).contains "courses" = true →
      TeacherV2.teacherPopIncludes (some p)
        = [IncludeSpec.mk .course none [.student]]) ∧
    (∀ db p lim pg srt sf,
      (getAllCourses ⟨lim, pg, srt, sf, p⟩ db).1.is400
        = (getAllCourses ⟨lim, pg, srt, sf, none⟩ db).1.is400) ∧
    (∀ pop : String, (splitTrim pop).contains "courses" = true →
      toLowerStr pop ≠ "courses" →
      studentIncludes (some pop) = [studentCoursesIdOnly]) := by
  refine ⟨?_, ?_, ?_, ?_, ?_, ?_⟩
  · intro p1 p2 h1 h2 ht hs ha
    simp only [coursePopIncludes, h1, h2, Bool.false_eq_true, if_false]
    rw [ht, hs, ha]
  · intro p h1 ht
    have ht2 : ((splitTrim p).contains "teacher"
        || (splitTrim p).contains "all") = true := by rw [ht]; rfl
    simp [coursePopIncludes, h1, ht2]
    exact Or.inl (by simpa using ht)
  · intro p h1 hs
    have hs2 : ((splitTrim p).contains "students"
        || (splitTrim p).contains "all") = true := by rw [hs]; rfl
    simp [coursePopIncludes, h1, hs2]
    exact Or.inl (by simpa using hs)
  · intro p h1 hc
    have hc2 : ((splitTrim p).contains "courses"
        || (splitTrim p).contains "all") = true := by rw [hc]; rfl
    simp [TeacherV2.teacherPopIncludes, h1, hc2]
    intro hn
    exact absurd (by simpa using hc) hn
  · intro db p lim pg srt sf
    simp only [getAllCourses]
    split_ifs <;> simp [runList_is400]
  · intro pop hc hne
    unfold studentIncludes jsOrElse
    by_cases hp : pop.isEmpty
    · simp only [hp, if_true]
      decide
    · simp only [hp, Bool.false_eq_true, if_false]
      rw [if_neg (by simp [hne])]

/-- C7, witness: the tag `'teacher'` triggers the Teacher eager-load on the
courses endpoints even next to an unknown tag. -/
theorem c7_witness :
    ("teacher,xyz".isEmpty = false ∧
      (splitTrim "teacher,xyz").contains "teacher" = true) ∧
    IncludeSpec.mk .teacher none [] ∈ coursePopIncludes (some "teacher,xyz") :=
  ⟨⟨by decide, by decide⟩,
    c7_populate_semantics.2.1 "teacher,xyz" (by decide) (by decide)⟩

/-- C8, counterexample: the parametrized teachers list with
`populate='courses'` eager-loads two levels: its Course include itself
includes the enrolled Students. -/
theorem c8_counterexample :
    TeacherV2.teacherPopIncludes (some "courses")
      = [IncludeSpec.mk .course none [.student]] ∧
    ((TeacherV2.getAllTeachers ⟨none, none, none, none, some "courses"⟩
        db0).1.includesOf.any fun i => !i.nested.isEmpty) = true := by
  decide

/-- C8 (amended): every include built by the students endpoints, the courses
endpoints and the simple teachers endpoints is one level deep (no nested
include); the parametrized teachers endpoints are the single exception,
building either no include or exactly the Course include that nests the
enrolled Students one further level (and nothing deeper). -/
theorem c8_one_level_includes :
    (∀ pop, ∀ i ∈ studentIncludes pop, i.nested = []) ∧
    (∀ pop, ∀ i ∈ coursePopIncludes pop, i.nested = []) ∧
    TeacherV1.coursesShort.nested = [] ∧
    (∀ pop, TeacherV2.teacherPopIncludes pop = [] ∨
      TeacherV2.teacherPopIncludes pop
        = [IncludeSpec.mk .course none [.student]]) := by
  refine ⟨?_, ?_, rfl, ?_⟩
  · intro pop i hi
    unfold studentIncludes at hi
    split_ifs at hi <;> simp_all [studentCoursesFull, studentCoursesIdOnly]
  · intro pop i hi
    rcases pop with _ | p
    · simp [coursePopIncludes] at hi
    · simp only [coursePopIncludes] at hi
      split_ifs at hi <;> simp at hi <;>
        first
        | (subst hi; rfl)
        | (rcases hi with rfl | rfl <;> rfl)
  · intro pop
    rcases pop with _ | p
    · exact Or.inl rfl
    · simp only [TeacherV2.teacherPopIncludes]
      split_ifs <;> simp

/-- C8, witness: the students-list include for `populate='courses'` is flat. -/
theorem c8_witness :
    studentCoursesFull ∈ studentIncludes (some "courses") ∧
    studentCoursesFull.nested = [] :=
  ⟨by decide, c8_one_level_includes.1 (some "courses") studentCoursesFull (by decide)⟩

/-- C9: every join-table state reachable through the store's insert/remove
operations keeps at most one enrollment per (student, course) pair, and an
insert for a pair that already has a row fails (the unique index on
`[StudentId, CourseId]` rejects it), leaving the state unchanged. -/
theorem c9_enrollment_unique :
    (∀ t, EnrollReachable t → pairUnique t) ∧
    (∀ t (e r : EnrollmentRec), r ∈ t → samePair r e = true →
      insertEnrollment t e = .error "Validation error") := by
  constructor
  · intro t h
    induction h with
    | empty => simp [pairUnique]
    | insertStep h1 h2 ih => exact pairUnique_insert ih h2
    | removeStep h1 ih => exact pairUnique_remove _ _ ih
  · intro t e r hr hs
    have hany : (t.any fun x => samePair x e) = true :=
      List.any_eq_true.mpr ⟨r, hr, hs⟩
    simp [insertEnrollment, hany]

/-- C9, witness: the empty state is reachable and unique, and re-inserting
the pair of an existing enrollment fails. -/
theorem c9_witness :
    pairUnique [] ∧
    insertEnrollment [enr0] enr0 = .error "Validation error" :=
  ⟨c9_enrollment_unique.1 [] EnrollReachable.empty,
    c9_enrollment_unique.2 [enr0] enr0 enr0 (by decide) (by decide)⟩

/-- C10: in every list variant, each parameter falls back to its default
independently of the other.  A supplied `limit` that parses to 0 or fails
to parse is replaced by the default 10 and the response is exactly the
response with `limit` absent, whatever `page` and the other parameters are;
symmetrically, a falsy `page` is replaced by the default 1 and the response
equals the one with `page` absent.  In the validating variants such a
parameter is never the cause of a 400: with a falsy `limit` a 400 can only
come from the page or sort check, and with a falsy `page` only from the
limit or sort check — the fallback runs before the range check. -/
theorem c10_falsy_params :
    (∀ ls : String, jsParseInt ls = none ∨ jsParseInt ls = some 0 →
      parseIntOr (some ls) 10 = 10) ∧
    (∀ ps : String, jsParseInt ps = none ∨ jsParseInt ps = some 0 →
      parseIntOr (some ps) 1 = 1) ∧
    (∀ q db ls, q.limit = some ls →
      jsParseInt ls = none ∨ jsParseInt ls = some 0 →
      getAllStudents q db
        = getAllStudents ⟨none, q.page, q.sort, q.sortField, q.populate⟩ db) ∧
    (∀ q db ls, q.limit = some ls →
      jsParseInt ls = none ∨ jsParseInt ls = some 0 →
      getAllCourses q db
        = getAllCourses ⟨none, q.page, q.sort, q.sortField, q.populate⟩ db) ∧
    (∀ q db ls, q.limit = some ls →
      jsParseInt ls = none ∨ jsParseInt ls = some 0 →
      TeacherV1.getAllTeachers q db
        = TeacherV1.getAllTeachers ⟨none, q.page, q.sort, q.sortField, q.populate⟩ db) ∧
    (∀ q db ls, q.limit = some ls →
      jsParseInt ls = none ∨ jsParseInt ls = some 0 →
      TeacherV2.getAllTeachers q db
        = TeacherV2.getAllTeachers ⟨none, q.page, q.sort, q.sortField, q.populate⟩ db) ∧
    (∀ q db ps, q.page = some ps →
      jsParseInt ps = none ∨ jsParseInt ps = some 0 →
      getAllStudents q db
        = getAllStudents ⟨q.limit, none, q.sort, q.sortField, q.populate⟩ db) ∧
    (∀ q db ps, q.page = some ps →
      jsParseInt ps = none ∨ jsParseInt ps = some 0 →
      getAllCourses q db
        = getAllCourses ⟨q.limit, none, q.sort, q.sortField, q.populate⟩ db) ∧
    (∀ q db ps, q.page = some ps →
      jsParseInt ps = none ∨ jsParseInt ps = some 0 →
      TeacherV1.getAllTeachers q db
        = TeacherV1.getAllTeachers ⟨q.limit, none, q.sort, q.sortField, q.populate⟩ db) ∧
    (∀ q db ps, q.page = some ps →
      jsParseInt ps = none ∨ jsParseInt ps = some 0 →
      TeacherV2.getAllTeachers q db
        = TeacherV2.getAllTeachers ⟨q.limit, none, q.sort, q.sortField, q.populate⟩ db) ∧
    (∀ q db ls, q.limit = some ls →
      jsParseInt ls = none ∨ jsParseInt ls = some 0 →
      (getAllCourses q db).1.is400 = true →
      parseIntOr q.page 1 < 1 ∨
        (["asc", "desc"].contains (jsOrElse q.sort "desc")) = false) ∧
    (∀ q db ls, q.limit = some ls →
      jsParseInt ls = none ∨ jsParseInt ls = some 0 →
      (TeacherV2.getAllTeachers q db).1.is400 = true →
      parseIntOr q.page 1 < 1 ∨
        (["asc", "desc"].contains (jsOrElse q.sort "desc")) = false) ∧
    (∀ q db ps, q.page = some ps →
      jsParseInt ps = none ∨ jsParseInt ps = some 0 →
      (getAllCourses q db).1.is400 = true →
      (parseIntOr q.limit 10 < 1 ∨ 100 < parseIntOr q.limit 10) ∨
        (["asc", "desc"].contains (jsOrElse q.sort "desc")) = false) ∧
    (∀ q db ps, q.page = some ps →
      jsParseInt ps = none ∨ jsParseInt ps = some 0 →
      (TeacherV2.getAllTeachers q db).1.is400 = true →
      (parseIntOr q.limit 10 < 1 ∨ 100 < parseIntOr q.limit 10) ∨
        (["asc", "desc"].contains (jsOrElse q.sort "desc")) = false) := by
  have hlim : ∀ (s : Option String) (str : String),
      s = some str → jsParseInt str = none ∨ jsParseInt str = some 0 →
      parseIntOr s 10 = 10 := by
    intro s str hs hf
    rw [hs]
    rcases hf with h | h <;> simp [parseIntOr, h]
  have hpage : ∀ (s : Option String) (str : String),
      s = some str → jsParseInt str = none ∨ jsParseInt str = some 0 →
      parseIntOr s 1 = 1 := by
    intro s str hs hf
    rw [hs]
    rcases hf with h | h <;> simp [parseIntOr, h]
  refine ⟨fun ls hf => hlim (some ls) ls rfl hf,
    fun ps hf => hpage (some ps) ps rfl hf,
    ?_, ?_, ?_, ?_, ?_, ?_, ?_, ?_, ?_, ?_, ?_, ?_⟩
  · intro q db ls hq hf
    have h10 := hlim q.limit ls hq hf
    simp only [getAllStudents]
    rw [h10]
    simp [parseIntOr]
    rfl
  · intro q db ls hq hf
    have h10 := hlim q.limit ls hq hf
    simp only [getAllCourses]
    rw [h10]
    simp [parseIntOr]
    rfl
  · intro q db ls hq hf
    have h10 := hlim q.limit ls hq hf
    simp only [TeacherV1.getAllTeachers]
    rw [h10]
    simp [parseIntOr]
    rfl
  · intro q db ls hq hf
    have h10 := hlim q.limit ls hq hf
    simp only [TeacherV2.getAllTeachers]
    rw [h10]
    simp [parseIntOr]
    rfl
  · intro q db ps hq hf
    have h1 := hpage q.page ps hq hf
    simp only [getAllStudents]
    rw [h1]
    simp [parseIntOr]
    rfl
  · intro q db ps hq hf
    have h1 := hpage q.page ps hq hf
    simp only [getAllCourses]
    rw [h1]
    simp [parseIntOr]
    rfl
  · intro q db ps hq hf
    have h1 := hpage q.page ps hq hf
    simp only [TeacherV1.getAllTeachers]
    rw [h1]
    simp [parseIntOr]
    rfl
  · intro q db ps hq hf
    have h1 := hpage q.page ps hq hf
    simp only [TeacherV2.getAllTeachers]
    rw [h1]
    simp [parseIntOr]
    rfl
  · intro q db ls hq hf
    have h10 := hlim q.limit ls hq hf
    simp only [getAllCourses]
    rw [h10]
    split_ifs with hc1 hc2 hc3
    · exact absurd hc1 (by omega)
    · intro _
      exact Or.inl hc2
    · intro _
      right
      simpa using hc3
    · rw [runList_is400]
      intro hfalse
      exact absurd hfalse (by simp)
  · intro q db ls hq hf
    have h10 := hlim q.limit ls hq hf
    simp only [TeacherV2.getAllTeachers]
    rw [h10]
    split_ifs with hc1 hc2 hc3
    · exact absurd hc1 (by omega)
    · intro _
      exact Or.inl hc2
    · intro _
      right
      simpa using hc3
    · rw [runList_is400]
      intro hfalse
      exact absurd hfalse (by simp)
  · intro q db ps hq hf
    have h1 := hpage q.page ps hq hf
    simp only [getAllCourses]
    rw [h1]
    split_ifs with hc1 hc2 hc3
    · intro _
      exact Or.inl hc1
    · exact absurd hc2 (by omega)
    · intro _
      right
      simpa using hc3
    · rw [runList_is400]
      intro hfalse
      exact absurd hfalse (by simp)
  · intro q db ps hq hf
    have h1 := hpage q.page ps hq hf
    simp only [TeacherV2.getAllTeachers]
    rw [h1]
    split_ifs with hc1 hc2 hc3
    · intro _
      exact Or.inl hc1
    · exact absurd hc2 (by omega)
    · intro _
      right
      simpa using hc3
    · rw [runList_is400]
      intro hfalse
      exact absurd hfalse (by simp)

/-- C10, witness: `limit='0'` with `page` absent behaves exactly like a
request without `limit` on the validating courses list, and `page='abc'`
with a valid `limit=5` behaves exactly like a request without `page`. -/
theorem c10_witness :
    (jsParseInt "0" = none ∨ jsParseInt "0" = some 0) ∧
    parseIntOr (some "0") 10 = 10 ∧
    getAllCourses ⟨some "0", none, none, none, none⟩ db0
      = getAllCourses ⟨none, none, none, none, none⟩ db0 ∧
    (jsParseInt "abc" = none ∨ jsParseInt "abc" = some 0) ∧
    getAllCourses ⟨some "5", some "abc", none, none, none⟩ db0
      = getAllCourses ⟨some "5", none, none, none, none⟩ db0 :=
  ⟨by decide,
    c10_falsy_params.1 "0" (by decide),
    c10_falsy_params.2.2.2.1 ⟨some "0", none, none, none, none⟩ db0 "0"
      rfl (by decide),
    by decide,
    c10_falsy_params.2.2.2.2.2.2.2.1 ⟨some "5", some "abc", none, none, none⟩
      db0 "abc" rfl (by decide)⟩
